import Mathlib

/-!
Verification of `kube-pod-dumper` (src/main.py): a shallow embedding of the
reconciler pipeline (the `HandlerThread`, `run_git`, and `clean_manifest`)
and proofs of the specified properties.

Modelling conventions:
* A manifest (the structured document produced by
  `api_client.sanitize_for_serialization`) is a `Yaml` value; mappings are
  association lists of string keys (keys of a Python dict are unique, so
  deleting a key removes its only binding).
* The snapshot store is a state `St` holding the working tree (path to
  file content), the git index, the tree at HEAD, the commit-message log,
  and a trace of the git commands that `run_git` has invoked.
* Python exceptions are values of `PyErr`; a fallible step returns
  `St × Option PyErr` (the state as mutated so far, plus the exception
  that escaped, if any), since Python side effects done before a raise
  persist.
-/

mutual

/-- A YAML/JSON-like structured document, the shape of a pod manifest. -/
inductive Yaml where
  | null : Yaml
  | str (s : String) : Yaml
  | arr (xs : YamlSeq) : Yaml
  | map (kvs : YamlMap) : Yaml

/-- A sequence of `Yaml` values. -/
inductive YamlSeq where
  | nil : YamlSeq
  | cons (hd : Yaml) (tl : YamlSeq) : YamlSeq

/-- A mapping from string keys to `Yaml` values (a Python dict). -/
inductive YamlMap where
  | nil : YamlMap
  | cons (k : String) (v : Yaml) (tl : YamlMap) : YamlMap

end

/-- Dict read `m[k]`: the first binding of `k`, if any. -/
def YamlMap.lookup : YamlMap → String → Option Yaml
  | .nil, _ => none
  | .cons k v tl, key => if k = key then some v else tl.lookup key

/-- Dict deletion `del m[k]`: removes every binding of `k` (a Python dict
has at most one). -/
def YamlMap.erase : YamlMap → String → YamlMap
  | .nil, _ => .nil
  | .cons k v tl, key => if k = key then tl.erase key else .cons k v (tl.erase key)

/-- In-place mutation of the value bound to `k` (the binding keeps its
position, every other binding is untouched). -/
def YamlMap.update : YamlMap → String → Yaml → YamlMap
  | .nil, _, _ => .nil
  | .cons k v tl, key, nv => if k = key then .cons k nv tl else .cons k v (tl.update key nv)

mutual

/-- Model of `yaml.dump`: a deterministic serialization of a manifest. -/
def Yaml.dump : Yaml → String
  | .null => "null"
  | .str s => "str:" ++ s ++ ";"
  | .arr xs => "arr[" ++ xs.dump ++ "]"
  | .map kvs => "map[" ++ kvs.dump ++ "]"

/-- Serialization of a sequence. -/
def YamlSeq.dump : YamlSeq → String
  | .nil => ""
  | .cons hd tl => hd.dump ++ "," ++ tl.dump

/-- Serialization of a mapping. -/
def YamlMap.dump : YamlMap → String
  | .nil => ""
  | .cons k v tl => k ++ ":" ++ v.dump ++ "," ++ tl.dump

end

/-- The Python exceptions the reconciler can see. -/
inductive PyErr where
  | keyError : PyErr
  | typeError : PyErr
  | fileNotFoundError : PyErr
  | calledProcessError (returncode : Nat) : PyErr
  deriving DecidableEq

/-- `WatchEventType`: the kind of a change notification. -/
inductive EventType where
  | ADDED
  | MODIFIED
  | DELETED
  | DONE_INITIAL
  deriving DecidableEq

/-- The `.name` attribute of the enum member, used in log lines and commit
messages. -/
def EventType.name : EventType → String
  | .ADDED => "ADDED"
  | .MODIFIED => "MODIFIED"
  | .DELETED => "DELETED"
  | .DONE_INITIAL => "DONE_INITIAL"

/-- A pod as dequeued: its identity `(metadata.namespace, metadata.name)`
and the manifest that `sanitize_for_serialization` yields for it.
(`DONE_INITIAL` sentinel items carry no meaningful pod; `handle` returns
before touching it.) -/
structure Pod where
  ns : String
  name : String
  manifest : Yaml

/-- Model of `api_client.sanitize_for_serialization(pod)`: the pod's
structured manifest. -/
def sanitize_for_serialization (pod : Pod) : Yaml :=
  pod.manifest

/-- Working tree / git tree: file path to file content. -/
abbrev FileTree := List (String × String)

/-- Content of the file at `p`, if it exists. -/
def getFile : FileTree → String → Option String
  | [], _ => none
  | kv :: t, p => if kv.fst = p then some kv.snd else getFile t p

/-- `open(p, 'w')` + write: overwrite the file at `p`, creating it if
absent. -/
def setFile : FileTree → String → String → FileTree
  | [], p, c => [(p, c)]
  | kv :: t, p, c => if kv.fst = p then (p, c) :: t else kv :: setFile t p c

/-- `os.remove(p)` after it succeeded: the path `p` is gone. -/
def removeFile : FileTree → String → FileTree
  | [], _ => []
  | kv :: t, p => if kv.fst = p then removeFile t p else kv :: removeFile t p

/-- The snapshot store: working tree, git index, tree at HEAD, commit
messages (append-only log), and the argv trace of git invocations. -/
structure St where
  workTree : FileTree
  index : FileTree
  head : FileTree
  log : List String
  gitTrace : List (List String)
  deriving DecidableEq

/-- Model of `run_git(repo_path, *args)` without `check=True`: records the
invocation and returns the new state and the exit code. `add -A` stages the
working tree; `commit -m msg` exits 1 (nothing to commit) when the index
equals HEAD, else appends a commit. -/
def run_git (s : St) (args : List String) : St × Nat :=
  let s := { s with gitTrace := s.gitTrace ++ [args] }
  match args with
  | ["add", "-A"] => ({ s with index := s.workTree }, 0)
  | ["commit", "-m", msg] =>
      if s.index = s.head then (s, 1)
      else ({ s with head := s.index, log := s.log ++ [msg] }, 0)
  | _ => (s, 0)

/-- `subprocess.run(cmd, check=True)`: raises `CalledProcessError` exactly
on a non-zero exit code. -/
def checkReturncode (rc : Nat) : Option PyErr :=
  if rc = 0 then none else some (.calledProcessError rc)

/-- The `except CalledProcessError` clause around the commit (src/main.py
lines 99-103): re-raise unless the return code is exactly 1. -/
def commit_error_filter : Option PyErr → Option PyErr
  | none => none
  | some (.calledProcessError rc) => if rc ≠ 1 then some (.calledProcessError rc) else none
  | some e => some e

/-- `clean_manifest(manifest)`: `del manifest['metadata']['managedFields']`
with `KeyError` swallowed. A missing `metadata` or `managedFields` key is a
swallowed `KeyError`; indexing or deleting on a non-mapping raises
`TypeError`, which is not caught. Returns the manifest after the mutation. -/
def clean_manifest (manifest : Yaml) : Except PyErr Yaml :=
  match manifest with
  | .map kvs =>
      match kvs.lookup "metadata" with
      | none => .ok manifest
      | some (.map mkvs) =>
          match mkvs.lookup "managedFields" with
          | none => .ok manifest
          | some _ => .ok (.map (kvs.update "metadata" (.map (mkvs.erase "managedFields"))))
      | some _ => .error .typeError
  | _ => .error .typeError

/-- Whether a manifest carries the volatile server-managed field-ownership
metadata, i.e. has a `managedFields` key in its `metadata` mapping. -/
def hasManagedFields (m : Yaml) : Bool :=
  match m with
  | .map kvs =>
      match kvs.lookup "metadata" with
      | some (.map mkvs) => (mkvs.lookup "managedFields").isSome
      | _ => false
  | _ => false

/-- `os.path.join(repo_path, ns, name + '.yaml')`, relative to the repo
root: the deterministic snapshot path of an identity. -/
def snapshotPath (ns name : String) : String :=
  ns ++ "/" ++ name ++ ".yaml"

/-- `HandlerThread.handle_update`: sanitize, clean, and write the manifest
to `file_path` (the `os.makedirs` call only ensures the parent directory
and has no effect in the path-to-content tree model). A `TypeError` from
`clean_manifest` escapes before the write. -/
def handle_update (file_path : String) (pod : Pod) (s : St) : St × Option PyErr :=
  let manifest := sanitize_for_serialization pod
  match clean_manifest manifest with
  | .error e => (s, some e)
  | .ok m => ({ s with workTree := setFile s.workTree file_path m.dump }, none)

/-- `HandlerThread.handle_delete`: `os.remove(file_path)`, which raises
`FileNotFoundError` when the file does not exist. -/
def handle_delete (file_path : String) (_pod : Pod) (s : St) : St × Option PyErr :=
  if (getFile s.workTree file_path).isSome then
    ({ s with workTree := removeFile s.workTree file_path }, none)
  else
    (s, some .fileNotFoundError)

/-- The commit message `f'{event_type.name} {pod.metadata.namespace}/{pod.metadata.name}'`. -/
def commitMsg (event_type : EventType) (pod : Pod) : String :=
  event_type.name ++ " " ++ pod.ns ++ "/" ++ pod.name

/-- Lines 98-103 of `HandlerThread.handle`: `run_git('add', '-A')`
(a failure of which would escape uncaught), then the commit attempt with
only the exit-code-1 (nothing to commit) failure tolerated. -/
def git_add_commit (event_type : EventType) (pod : Pod) (s : St) : St × Option PyErr :=
  let (s2, rcAdd) := run_git s ["add", "-A"]
  match checkReturncode rcAdd with
  | some e => (s2, some e)
  | none =>
    let (s3, rc) := run_git s2 ["commit", "-m", commitMsg event_type pod]
    (s3, commit_error_filter (checkReturncode rc))

/-- `HandlerThread.handle`: return at once on the sentinel, otherwise
dispatch on the event type and, when the file mutation raised nothing,
stage all and attempt the commit. -/
def handle (event_type : EventType) (pod : Pod) (s : St) : St × Option PyErr :=
  match event_type with
  | .DONE_INITIAL => (s, none)
  | .ADDED | .MODIFIED =>
    match handle_update (snapshotPath pod.ns pod.name) pod s with
    | (s1, some e) => (s1, some e)
    | (s1, none) => git_add_commit event_type pod s1
  | .DELETED =>
    match handle_delete (snapshotPath pod.ns pod.name) pod s with
    | (s1, some e) => (s1, some e)
    | (s1, none) => git_add_commit event_type pod s1

/-- `HandlerThread.run_supervised` on a finite prefix of the queue: handle
each dequeued item; an exception is caught and logged (`log.exception`)
with the event kind, namespace and name, and the loop continues. Returns
the final state and the failure-log entries in order. -/
def run_supervised : List (EventType × Pod) → St → St × List (String × String × String)
  | [], s => (s, [])
  | (et, pod) :: rest, s =>
    let (s1, e) := handle et pod s
    let (s2, logs) := run_supervised rest s1
    match e with
    | some _ => (s2, (et.name, pod.ns, pod.name) :: logs)
    | none => (s2, logs)

/-! Basic facts about the file-tree operations. -/

theorem getFile_setFile_self (t : FileTree) (p c : String) :
    getFile (setFile t p c) p = some c := by
  induction t with
  | nil => simp [setFile, getFile]
  | cons kv t ih =>
      by_cases h : kv.fst = p
      · simp [setFile, getFile, h]
      · simp [setFile, getFile, h, ih]

theorem getFile_setFile_ne (t : FileTree) (p c q : String) (h : q ≠ p) :
    getFile (setFile t p c) q = getFile t q := by
  induction t with
  | nil => simp [setFile, getFile, Ne.symm h]
  | cons kv t ih =>
      by_cases hk : kv.fst = p
      · subst hk
        simp [setFile, getFile, Ne.symm h]
      · simp [setFile, getFile, hk, ih]

theorem setFile_setFile_same (t : FileTree) (p c : String) :
    setFile (setFile t p c) p c = setFile t p c := by
  induction t with
  | nil => simp [setFile]
  | cons kv t ih =>
      by_cases h : kv.fst = p
      · simp [setFile, h]
      · simp [setFile, h, ih]

theorem getFile_removeFile_self (t : FileTree) (p : String) :
    getFile (removeFile t p) p = none := by
  induction t with
  | nil => simp [removeFile, getFile]
  | cons kv t ih =>
      by_cases h : kv.fst = p
      · simp [removeFile, h, ih]
      · simp [removeFile, getFile, h, ih]

theorem getFile_removeFile_ne (t : FileTree) (p q : String) (h : q ≠ p) :
    getFile (removeFile t p) q = getFile t q := by
  induction t with
  | nil => simp [removeFile]
  | cons kv t ih =>
      by_cases hk : kv.fst = p
      · subst hk
        simp [removeFile, getFile, ih, Ne.symm h]
      · simp [removeFile, getFile, hk, ih]

/-! Basic facts about mapping mutation. -/

theorem YamlMap.lookup_update_ne : ∀ (m : YamlMap) (k : String) (v : Yaml) (q : String),
    q ≠ k → (m.update k v).lookup q = m.lookup q
  | .nil, _, _, _, _ => by simp [YamlMap.update]
  | .cons k0 v0 tl, k, v, q, h => by
      by_cases hk : k0 = k
      · subst hk
        simp [YamlMap.update, YamlMap.lookup, Ne.symm h]
      · simp [YamlMap.update, YamlMap.lookup, hk, lookup_update_ne tl k v q h]

theorem YamlMap.lookup_update_self : ∀ (m : YamlMap) (k : String) (v w : Yaml),
    m.lookup k = some w → (m.update k v).lookup k = some v
  | .nil, k, _, _, h => by simp [YamlMap.lookup] at h
  | .cons k0 v0 tl, k, v, w, h => by
      by_cases hk : k0 = k
      · subst hk
        simp [YamlMap.update, YamlMap.lookup]
      · simp [YamlMap.lookup, hk] at h
        simp [YamlMap.update, YamlMap.lookup, hk, lookup_update_self tl k v w h]

theorem YamlMap.lookup_erase_self : ∀ (m : YamlMap) (k : String),
    (m.erase k).lookup k = none
  | .nil, _ => by simp [YamlMap.erase, YamlMap.lookup]
  | .cons k0 v0 tl, k => by
      by_cases hk : k0 = k
      · simp [YamlMap.erase, hk, lookup_erase_self tl k]
      · simp [YamlMap.erase, YamlMap.lookup, hk, lookup_erase_self tl k]

theorem YamlMap.lookup_erase_ne : ∀ (m : YamlMap) (k q : String),
    q ≠ k → (m.erase k).lookup q = m.lookup q
  | .nil, _, _, _ => by simp [YamlMap.erase]
  | .cons k0 v0 tl, k, q, h => by
      by_cases hk : k0 = k
      · subst hk
        simp [YamlMap.erase, YamlMap.lookup, Ne.symm h, lookup_erase_ne tl k0 q h]
      · simp [YamlMap.erase, YamlMap.lookup, hk, lookup_erase_ne tl k q h]

/-! Closed forms of the git phase and of `handle` on each event kind. -/

theorem git_add_commit_noop (et : EventType) (pod : Pod) (s : St)
    (h : s.workTree = s.head) :
    git_add_commit et pod s =
      ({ s with index := s.workTree,
                gitTrace := s.gitTrace ++ [["add", "-A"], ["commit", "-m", commitMsg et pod]] },
       none) := by
  simp [git_add_commit, run_git, checkReturncode, commit_error_filter, h]

theorem git_add_commit_commits (et : EventType) (pod : Pod) (s : St)
    (h : ¬ s.workTree = s.head) :
    git_add_commit et pod s =
      ({ s with index := s.workTree, head := s.workTree,
                log := s.log ++ [commitMsg et pod],
                gitTrace := s.gitTrace ++ [["add", "-A"], ["commit", "-m", commitMsg et pod]] },
       none) := by
  simp [git_add_commit, run_git, checkReturncode, commit_error_filter, h]

theorem handle_update_ok (file_path : String) (pod : Pod) (s : St) (m : Yaml)
    (hm : clean_manifest (sanitize_for_serialization pod) = .ok m) :
    handle_update file_path pod s =
      ({ s with workTree := setFile s.workTree file_path m.dump }, none) := by
  simp [handle_update, hm]

theorem handle_update_err (file_path : String) (pod : Pod) (s : St) (e : PyErr)
    (hm : clean_manifest (sanitize_for_serialization pod) = .error e) :
    handle_update file_path pod s = (s, some e) := by
  simp [handle_update, hm]

theorem handle_delete_present (file_path : String) (pod : Pod) (s : St)
    (h : (getFile s.workTree file_path).isSome = true) :
    handle_delete file_path pod s =
      ({ s with workTree := removeFile s.workTree file_path }, none) := by
  simp [handle_delete, h]

theorem handle_delete_absent (file_path : String) (pod : Pod) (s : St)
    (h : getFile s.workTree file_path = none) :
    handle_delete file_path pod s = (s, some .fileNotFoundError) := by
  simp [handle_delete, h]

theorem handle_eq_update (et : EventType) (pod : Pod) (s : St) (m : Yaml)
    (hk : et = .ADDED ∨ et = .MODIFIED)
    (hm : clean_manifest (sanitize_for_serialization pod) = .ok m) :
    handle et pod s =
      git_add_commit et pod
        { s with workTree := setFile s.workTree (snapshotPath pod.ns pod.name) m.dump } := by
  rcases hk with h | h <;> subst h <;>
    simp [handle, handle_update_ok _ _ _ _ hm]

theorem handle_eq_update_err (et : EventType) (pod : Pod) (s : St) (e : PyErr)
    (hk : et = .ADDED ∨ et = .MODIFIED)
    (hm : clean_manifest (sanitize_for_serialization pod) = .error e) :
    handle et pod s = (s, some e) := by
  rcases hk with h | h <;> subst h <;>
    simp [handle, handle_update_err _ _ _ _ hm]

theorem handle_eq_delete (pod : Pod) (s : St)
    (h : (getFile s.workTree (snapshotPath pod.ns pod.name)).isSome = true) :
    handle .DELETED pod s =
      git_add_commit .DELETED pod
        { s with workTree := removeFile s.workTree (snapshotPath pod.ns pod.name) } := by
  simp [handle, handle_delete_present _ _ _ h]

theorem handle_eq_delete_absent (pod : Pod) (s : St)
    (h : getFile s.workTree (snapshotPath pod.ns pod.name) = none) :
    handle .DELETED pod s = (s, some .fileNotFoundError) := by
  simp [handle, handle_delete_absent _ _ _ h]

/-- Field-level characterization of the git phase: it never raises (the
only possible commit failure is the tolerated exit code 1), leaves the
working tree alone, stages it, after which HEAD equals the working tree,
records exactly one stage-all plus one commit invocation, and appends to
the commit log at most the one commit message. -/
theorem git_add_commit_fields (et : EventType) (pod : Pod) (s : St) :
    (git_add_commit et pod s).2 = none
    ∧ (git_add_commit et pod s).1.workTree = s.workTree
    ∧ (git_add_commit et pod s).1.index = s.workTree
    ∧ (git_add_commit et pod s).1.head = s.workTree
    ∧ (git_add_commit et pod s).1.gitTrace =
        s.gitTrace ++ [["add", "-A"], ["commit", "-m", commitMsg et pod]]
    ∧ ((git_add_commit et pod s).1.log = s.log
       ∨ (git_add_commit et pod s).1.log = s.log ++ [commitMsg et pod]) := by
  by_cases h : s.workTree = s.head
  · rw [git_add_commit_noop et pod s h]
    simp [h.symm]
  · rw [git_add_commit_commits et pod s h]
    simp

/-- A pair whose second component is `none` is the pair of its first
component with `none`. -/
theorem eq_pair_of_snd_none {α β : Type} (x : α × Option β) (h : x.2 = none) :
    x = (x.1, none) := by
  cases x
  simp_all

/-- Stepping the supervised loop over an item whose handling raised
nothing. -/
theorem run_supervised_cons_ok (et : EventType) (pod : Pod)
    (rest : List (EventType × Pod)) (s s1 : St)
    (h : handle et pod s = (s1, none)) :
    run_supervised ((et, pod) :: rest) s = run_supervised rest s1 := by
  simp [run_supervised, h]

/-- Stepping the supervised loop over an item whose handling raised: the
exception is swallowed, the failure is logged with the event kind,
namespace and name, and the loop continues on the remaining items. -/
theorem run_supervised_cons_err (et : EventType) (pod : Pod)
    (rest : List (EventType × Pod)) (s s1 : St) (e : PyErr)
    (h : handle et pod s = (s1, some e)) :
    run_supervised ((et, pod) :: rest) s =
      ((run_supervised rest s1).1,
       (et.name, pod.ns, pod.name) :: (run_supervised rest s1).2) := by
  simp [run_supervised, h]

/-- Claim C8: handling the `DONE_INITIAL` sentinel performs no store
mutation at all: the state (working tree, index, HEAD, commit log, git
trace) is returned unchanged and nothing is raised. -/
theorem c8_sentinel_no_mutation (pod : Pod) (s : St) :
    handle .DONE_INITIAL pod s = (s, none) :=
  rfl

/-- Claim C2: the commit step tolerates exactly the exit-code-1
(nothing to commit) outcome: a commit exiting 1 raises nothing, while
every other non-zero exit code is re-raised as the per-event
`CalledProcessError`. -/
theorem c2_commit_noop_distinction (rc : Nat) (h0 : rc ≠ 0) :
    (rc = 1 → commit_error_filter (checkReturncode rc) = none)
    ∧ (rc ≠ 1 → commit_error_filter (checkReturncode rc) = some (.calledProcessError rc)) := by
  constructor
  · intro h1
    subst h1
    simp [checkReturncode, commit_error_filter]
  · intro h1
    simp [checkReturncode, commit_error_filter, h0, h1]

/-- Witness for C2 at exit codes 1 and 2. -/
theorem c2_commit_noop_distinction_witness :
    commit_error_filter (checkReturncode 1) = none
    ∧ commit_error_filter (checkReturncode 2) = some (.calledProcessError 2) :=
  ⟨(c2_commit_noop_distinction 1 (by decide)).1 rfl,
   (c2_commit_noop_distinction 2 (by decide)).2 (by decide)⟩

/-- Claim C1 is false on the code: at a state with an empty working tree,
a `DELETED` notification makes `handle` raise `FileNotFoundError`
(`os.remove` has no existence guard), contradicting the claim that
handling does not raise. -/
theorem c1_counterexample :
    getFile (⟨[], [], [], [], []⟩ : St).workTree (snapshotPath "default" "pod-a") = none
    ∧ (handle .DELETED ⟨"default", "pod-a", .null⟩ ⟨[], [], [], [], []⟩).2 ≠ none := by
  constructor
  · rfl
  · intro h
    simp [handle, handle_delete, getFile, snapshotPath] at h

/-- Claim C1 (amended): a `Deleted` notification for an identity with no
existing file raises `FileNotFoundError` out of `handle` — removing
nothing, staging nothing and committing nothing — and the supervised loop
catches the exception, logs the event kind, namespace and name, and
continues. -/
theorem c1_delete_missing (pod : Pod) (s : St)
    (h : getFile s.workTree (snapshotPath pod.ns pod.name) = none) :
    handle .DELETED pod s = (s, some .fileNotFoundError)
    ∧ run_supervised [(.DELETED, pod)] s = (s, [("DELETED", pod.ns, pod.name)]) := by
  have h1 := handle_eq_delete_absent pod s h
  refine ⟨h1, ?_⟩
  rw [run_supervised_cons_err .DELETED pod [] s s .fileNotFoundError h1]
  simp [run_supervised, EventType.name]

/-- Witness for the amended C1 on an empty store. -/
theorem c1_delete_missing_witness :
    handle .DELETED ⟨"kube-system", "dns", .null⟩ ⟨[], [], [], [], []⟩ =
      (⟨[], [], [], [], []⟩, some .fileNotFoundError)
    ∧ run_supervised [(.DELETED, ⟨"kube-system", "dns", .null⟩)] ⟨[], [], [], [], []⟩ =
      (⟨[], [], [], [], []⟩, [("DELETED", "kube-system", "dns")]) :=
  c1_delete_missing ⟨"kube-system", "dns", .null⟩ ⟨[], [], [], [], []⟩ rfl

/-- Claim C9: when the file-tree mutation of a non-sentinel notification
raises, `handle` propagates that exception without running any git
command: the commit log, the git trace, HEAD and the index are all
those of the incoming state. -/
theorem c9_mutation_failure_skips_git (et : EventType) (pod : Pod) (s s2 : St) (err : PyErr)
    (h : ((et = .ADDED ∨ et = .MODIFIED)
            ∧ handle_update (snapshotPath pod.ns pod.name) pod s = (s2, some err))
        ∨ (et = .DELETED
            ∧ handle_delete (snapshotPath pod.ns pod.name) pod s = (s2, some err))) :
    handle et pod s = (s2, some err)
    ∧ s2.log = s.log ∧ s2.gitTrace = s.gitTrace
    ∧ s2.head = s.head ∧ s2.index = s.index := by
  rcases h with ⟨hk, hu⟩ | ⟨hk, hd⟩
  · cases hcl : clean_manifest (sanitize_for_serialization pod) with
    | error e =>
        rw [handle_update_err _ _ _ _ hcl] at hu
        obtain ⟨hs, he⟩ := Prod.mk.injEq .. ▸ hu
        subst hs
        refine ⟨?_, rfl, rfl, rfl, rfl⟩
        rw [handle_eq_update_err et pod s e hk hcl, he]
    | ok m =>
        rw [handle_update_ok _ _ _ _ hcl] at hu
        simp at hu
  · subst hk
    cases hget : getFile s.workTree (snapshotPath pod.ns pod.name) with
    | some c =>
        rw [handle_delete_present _ _ _ (by simp [hget])] at hd
        simp at hd
    | none =>
        rw [handle_delete_absent _ _ _ hget] at hd
        obtain ⟨hs, he⟩ := Prod.mk.injEq .. ▸ hd
        subst hs
        refine ⟨?_, rfl, rfl, rfl, rfl⟩
        rw [handle_eq_delete_absent pod s hget, he]

/-- Witness for C9: a `DELETED` event on an empty store. -/
theorem c9_mutation_failure_skips_git_witness :
    handle .DELETED ⟨"ns1", "p1", .null⟩ ⟨[], [], [], ["c0"], [["init"]]⟩ =
      (⟨[], [], [], ["c0"], [["init"]]⟩, some .fileNotFoundError)
    ∧ (⟨[], [], [], ["c0"], [["init"]]⟩ : St).log = (⟨[], [], [], ["c0"], [["init"]]⟩ : St).log
    ∧ (⟨[], [], [], ["c0"], [["init"]]⟩ : St).gitTrace = (⟨[], [], [], ["c0"], [["init"]]⟩ : St).gitTrace
    ∧ (⟨[], [], [], ["c0"], [["init"]]⟩ : St).head = (⟨[], [], [], ["c0"], [["init"]]⟩ : St).head
    ∧ (⟨[], [], [], ["c0"], [["init"]]⟩ : St).index = (⟨[], [], [], ["c0"], [["init"]]⟩ : St).index :=
  c9_mutation_failure_skips_git .DELETED ⟨"ns1", "p1", .null⟩
    ⟨[], [], [], ["c0"], [["init"]]⟩ ⟨[], [], [], ["c0"], [["init"]]⟩ .fileNotFoundError
    (Or.inr ⟨rfl, rfl⟩)

/-- Claim C6: for every raw manifest carrying `metadata.managedFields`,
`handle_update` persists (writes at the file path) the serialization of a
cleaned manifest that no longer contains the field, whatever its value
was. -/
theorem c6_persisted_manifest_sanitized (file_path : String) (pod : Pod) (s : St)
    (h : hasManagedFields (sanitize_for_serialization pod) = true) :
    ∃ m : Yaml,
      clean_manifest (sanitize_for_serialization pod) = .ok m
      ∧ hasManagedFields m = false
      ∧ handle_update file_path pod s =
          ({ s with workTree := setFile s.workTree file_path m.dump }, none)
      ∧ getFile (setFile s.workTree file_path m.dump) file_path = some m.dump := by
  rcases hy : sanitize_for_serialization pod with _ | c | xs | kvs <;>
    rw [hy] at h <;> try simp [hasManagedFields] at h
  rcases hmd : kvs.lookup "metadata" with _ | v
  · simp [hasManagedFields, hmd] at h
  rcases v with _ | c | xs | mkvs <;> try simp [hasManagedFields, hmd] at h
  rcases hmf : mkvs.lookup "managedFields" with _ | w
  · simp [hasManagedFields, hmd, hmf] at h
  have hcl : clean_manifest (sanitize_for_serialization pod) =
      .ok (.map (kvs.update "metadata" (.map (mkvs.erase "managedFields")))) := by
    rw [hy]
    simp [clean_manifest, hmd, hmf]
  have hcl2 : clean_manifest (.map kvs) =
      .ok (.map (kvs.update "metadata" (.map (mkvs.erase "managedFields")))) := by
    rw [← hy]
    exact hcl
  refine ⟨.map (kvs.update "metadata" (.map (mkvs.erase "managedFields"))), hcl2, ?_, ?_, ?_⟩
  · simp [hasManagedFields,
      YamlMap.lookup_update_self kvs "metadata" _ _ hmd,
      YamlMap.lookup_erase_self]
  · exact handle_update_ok file_path pod s _ hcl
  · exact getFile_setFile_self s.workTree file_path _

/-- Witness for C6: a manifest whose metadata holds a `managedFields`
entry. -/
theorem c6_persisted_manifest_sanitized_witness :
    ∃ m : Yaml,
      clean_manifest (sanitize_for_serialization
        ⟨"default", "a",
         .map (.cons "metadata" (.map (.cons "managedFields" .null .nil)) .nil)⟩) = .ok m
      ∧ hasManagedFields m = false
      ∧ handle_update "default/a.yaml"
          ⟨"default", "a",
           .map (.cons "metadata" (.map (.cons "managedFields" .null .nil)) .nil)⟩
          ⟨[], [], [], [], []⟩ =
          ({ (⟨[], [], [], [], []⟩ : St) with
             workTree := setFile [] "default/a.yaml" m.dump }, none)
      ∧ getFile (setFile [] "default/a.yaml" m.dump) "default/a.yaml" = some m.dump :=
  c6_persisted_manifest_sanitized "default/a.yaml"
    ⟨"default", "a", .map (.cons "metadata" (.map (.cons "managedFields" .null .nil)) .nil)⟩
    ⟨[], [], [], [], []⟩ rfl

/-- Claim C10: `clean_manifest` changes at most the `managedFields` entry
of the manifest's `metadata` mapping: when `metadata` is absent, or
present as a mapping without `managedFields`, the manifest comes back
unchanged and nothing is raised; when both are present, the result has
`managedFields` gone while every other key of `metadata` and every other
key of the manifest keep their values. -/
theorem c10_clean_manifest_frame (kvs : YamlMap) :
    (kvs.lookup "metadata" = none → clean_manifest (.map kvs) = .ok (.map kvs))
    ∧ (∀ mkvs : YamlMap, kvs.lookup "metadata" = some (.map mkvs) →
        (mkvs.lookup "managedFields" = none → clean_manifest (.map kvs) = .ok (.map kvs))
        ∧ ∃ kvs2 mkvs2 : YamlMap,
            clean_manifest (.map kvs) = .ok (.map kvs2)
            ∧ kvs2.lookup "metadata" = some (.map mkvs2)
            ∧ (∀ k, k ≠ "metadata" → kvs2.lookup k = kvs.lookup k)
            ∧ (∀ k, k ≠ "managedFields" → mkvs2.lookup k = mkvs.lookup k)
            ∧ mkvs2.lookup "managedFields" = none) := by
  constructor
  · intro hmd
    simp [clean_manifest, hmd]
  · intro mkvs hmd
    constructor
    · intro hmf
      simp [clean_manifest, hmd, hmf]
    · rcases hmf : mkvs.lookup "managedFields" with _ | w
      · exact ⟨kvs, mkvs, by simp [clean_manifest, hmd, hmf], hmd,
          fun k _ => rfl, fun k _ => rfl, hmf⟩
      · refine ⟨kvs.update "metadata" (.map (mkvs.erase "managedFields")),
          mkvs.erase "managedFields", by simp [clean_manifest, hmd, hmf],
          YamlMap.lookup_update_self kvs "metadata" _ _ hmd,
          fun k hk => YamlMap.lookup_update_ne kvs "metadata" _ k hk,
          fun k hk => YamlMap.lookup_erase_ne mkvs "managedFields" k hk,
          YamlMap.lookup_erase_self mkvs "managedFields"⟩

/-- Witness for C10 on a manifest with one extra key at each level. -/
theorem c10_clean_manifest_frame_witness :
    ∃ kvs2 mkvs2 : YamlMap,
      clean_manifest (.map (.cons "apiVersion" (.str "v1")
          (.cons "metadata"
            (.map (.cons "name" (.str "a") (.cons "managedFields" .null .nil))) .nil)))
        = .ok (.map kvs2)
      ∧ kvs2.lookup "metadata" = some (.map mkvs2)
      ∧ (∀ k, k ≠ "metadata" → kvs2.lookup k =
          YamlMap.lookup (.cons "apiVersion" (.str "v1")
            (.cons "metadata"
              (.map (.cons "name" (.str "a") (.cons "managedFields" .null .nil))) .nil)) k)
      ∧ (∀ k, k ≠ "managedFields" → mkvs2.lookup k =
          YamlMap.lookup (.cons "name" (.str "a") (.cons "managedFields" .null .nil)) k)
      ∧ mkvs2.lookup "managedFields" = none :=
  ((c10_clean_manifest_frame
      (.cons "apiVersion" (.str "v1")
        (.cons "metadata"
          (.map (.cons "name" (.str "a") (.cons "managedFields" .null .nil))) .nil))).2
    (.cons "name" (.str "a") (.cons "managedFields" .null .nil)) rfl).2

/-- Claim C5: handling the same `ADDED` (or `MODIFIED`) notification twice
in succession raises nothing the second time, leaves the working tree —
hence the file content at the snapshot path — exactly as after the first
application, appends no commit (the second attempt is the tolerated
nothing-to-commit no-op), and records exactly one more stage-all plus
commit attempt. -/
theorem c5_idempotent (et : EventType) (pod : Pod) (s : St) (m : Yaml)
    (hk : et = .ADDED ∨ et = .MODIFIED)
    (hm : clean_manifest (sanitize_for_serialization pod) = .ok m) :
    (handle et pod (handle et pod s).1).2 = none
    ∧ (handle et pod (handle et pod s).1).1.workTree = (handle et pod s).1.workTree
    ∧ getFile (handle et pod (handle et pod s).1).1.workTree (snapshotPath pod.ns pod.name)
        = getFile (handle et pod s).1.workTree (snapshotPath pod.ns pod.name)
    ∧ (handle et pod (handle et pod s).1).1.log = (handle et pod s).1.log
    ∧ (handle et pod (handle et pod s).1).1.gitTrace =
        (handle et pod s).1.gitTrace ++ [["add", "-A"], ["commit", "-m", commitMsg et pod]] := by
  have h1 := handle_eq_update et pod s m hk hm
  have f1 := git_add_commit_fields et pod
    { s with workTree := setFile s.workTree (snapshotPath pod.ns pod.name) m.dump }
  have hfst : (handle et pod s).1 =
      (git_add_commit et pod
        { s with workTree := setFile s.workTree (snapshotPath pod.ns pod.name) m.dump }).1 := by
    rw [h1]
  have hw1 : (handle et pod s).1.workTree =
      setFile s.workTree (snapshotPath pod.ns pod.name) m.dump := by
    rw [hfst]
    exact f1.2.1
  have hh1 : (handle et pod s).1.head =
      setFile s.workTree (snapshotPath pod.ns pod.name) m.dump := by
    rw [hfst]
    exact f1.2.2.2.1
  have hi1 : (handle et pod s).1.index =
      setFile s.workTree (snapshotPath pod.ns pod.name) m.dump := by
    rw [hfst]
    exact f1.2.2.1
  have h2 := handle_eq_update et pod (handle et pod s).1 m hk hm
  have hsame : setFile ((handle et pod s).1).workTree (snapshotPath pod.ns pod.name) m.dump
      = ((handle et pod s).1).workTree := by
    rw [hw1]
    exact setFile_setFile_same s.workTree (snapshotPath pod.ns pod.name) m.dump
  have heq : ({ (handle et pod s).1 with
      workTree := setFile ((handle et pod s).1).workTree (snapshotPath pod.ns pod.name) m.dump } : St)
      = (handle et pod s).1 := by
    rw [hsame]
  rw [heq] at h2
  have hnoop := git_add_commit_noop et pod (handle et pod s).1 (by rw [hw1, hh1])
  rw [hnoop] at h2
  rw [h2]
  refine ⟨rfl, ?_, ?_, rfl, by simp⟩
  · rfl
  · rfl

/-- Witness for C5: the same `ADDED` notification applied twice from an
empty store. -/
theorem c5_idempotent_witness :
    (handle .ADDED ⟨"d", "p", .map .nil⟩
        (handle .ADDED ⟨"d", "p", .map .nil⟩ ⟨[], [], [], [], []⟩).1).2 = none
    ∧ (handle .ADDED ⟨"d", "p", .map .nil⟩
        (handle .ADDED ⟨"d", "p", .map .nil⟩ ⟨[], [], [], [], []⟩).1).1.workTree =
        (handle .ADDED ⟨"d", "p", .map .nil⟩ ⟨[], [], [], [], []⟩).1.workTree
    ∧ getFile (handle .ADDED ⟨"d", "p", .map .nil⟩
          (handle .ADDED ⟨"d", "p", .map .nil⟩ ⟨[], [], [], [], []⟩).1).1.workTree
        (snapshotPath "d" "p")
        = getFile (handle .ADDED ⟨"d", "p", .map .nil⟩ ⟨[], [], [], [], []⟩).1.workTree
            (snapshotPath "d" "p")
    ∧ (handle .ADDED ⟨"d", "p", .map .nil⟩
        (handle .ADDED ⟨"d", "p", .map .nil⟩ ⟨[], [], [], [], []⟩).1).1.log =
        (handle .ADDED ⟨"d", "p", .map .nil⟩ ⟨[], [], [], [], []⟩).1.log
    ∧ (handle .ADDED ⟨"d", "p", .map .nil⟩
        (handle .ADDED ⟨"d", "p", .map .nil⟩ ⟨[], [], [], [], []⟩).1).1.gitTrace =
        (handle .ADDED ⟨"d", "p", .map .nil⟩ ⟨[], [], [], [], []⟩).1.gitTrace
          ++ [["add", "-A"], ["commit", "-m", commitMsg .ADDED ⟨"d", "p", .map .nil⟩]] :=
  c5_idempotent .ADDED ⟨"d", "p", .map .nil⟩ ⟨[], [], [], [], []⟩ (.map .nil)
    (Or.inl rfl) rfl

/-- On a successful `ADDED`/`MODIFIED` handling, nothing is raised and the
working tree holds the written sanitized manifest. -/
theorem handle_update_fields (et : EventType) (pod : Pod) (s : St) (m : Yaml)
    (hk : et = .ADDED ∨ et = .MODIFIED)
    (hm : clean_manifest (sanitize_for_serialization pod) = .ok m) :
    (handle et pod s).2 = none
    ∧ (handle et pod s).1.workTree =
        setFile s.workTree (snapshotPath pod.ns pod.name) m.dump := by
  have h1 := handle_eq_update et pod s m hk hm
  have f1 := git_add_commit_fields et pod
    { s with workTree := setFile s.workTree (snapshotPath pod.ns pod.name) m.dump }
  exact ⟨by rw [h1]; exact f1.1, by rw [h1]; exact f1.2.1⟩

/-- On a `DELETED` handling of an existing file, nothing is raised and the
file is removed from the working tree. -/
theorem handle_delete_fields (pod : Pod) (s : St)
    (h : (getFile s.workTree (snapshotPath pod.ns pod.name)).isSome = true) :
    (handle .DELETED pod s).2 = none
    ∧ (handle .DELETED pod s).1.workTree =
        removeFile s.workTree (snapshotPath pod.ns pod.name) := by
  have h1 := handle_eq_delete pod s h
  have f1 := git_add_commit_fields .DELETED pod
    { s with workTree := removeFile s.workTree (snapshotPath pod.ns pod.name) }
  exact ⟨by rw [h1]; exact f1.1, by rw [h1]; exact f1.2.1⟩

/-- Claim C3: from any store state, feeding `[ADDED, MODIFIED, DELETED]`
for one identity through the loop raises nothing and leaves no file at
the identity's snapshot path, while feeding `[ADDED, MODIFIED]` leaves
exactly the serialized sanitized manifest of the `MODIFIED`
notification. -/
theorem c3_ordering_preservation (ns n : String) (mA mM mD : Yaml) (s : St) (cA cM : Yaml)
    (hA : clean_manifest mA = .ok cA)
    (hM : clean_manifest mM = .ok cM) :
    getFile (run_supervised
        [(.ADDED, ⟨ns, n, mA⟩), (.MODIFIED, ⟨ns, n, mM⟩), (.DELETED, ⟨ns, n, mD⟩)]
        s).1.workTree (snapshotPath ns n) = none
    ∧ (run_supervised
        [(.ADDED, ⟨ns, n, mA⟩), (.MODIFIED, ⟨ns, n, mM⟩), (.DELETED, ⟨ns, n, mD⟩)] s).2 = []
    ∧ getFile (run_supervised
        [(.ADDED, ⟨ns, n, mA⟩), (.MODIFIED, ⟨ns, n, mM⟩)] s).1.workTree
        (snapshotPath ns n) = some cM.dump := by
  have u1 := handle_update_fields .ADDED ⟨ns, n, mA⟩ s cA (Or.inl rfl) hA
  have e1 := eq_pair_of_snd_none _ u1.1
  have u2 := handle_update_fields .MODIFIED ⟨ns, n, mM⟩
    (handle .ADDED ⟨ns, n, mA⟩ s).1 cM (Or.inr rfl) hM
  have e2 := eq_pair_of_snd_none _ u2.1
  have hget2 : getFile (handle .MODIFIED ⟨ns, n, mM⟩
      (handle .ADDED ⟨ns, n, mA⟩ s).1).1.workTree (snapshotPath ns n) = some cM.dump := by
    rw [u2.2]
    exact getFile_setFile_self _ _ _
  have d3 := handle_delete_fields ⟨ns, n, mD⟩
    (handle .MODIFIED ⟨ns, n, mM⟩ (handle .ADDED ⟨ns, n, mA⟩ s).1).1
    (by rw [hget2]; rfl)
  have e3 := eq_pair_of_snd_none _ d3.1
  have r1 := run_supervised_cons_ok .ADDED ⟨ns, n, mA⟩
    [(.MODIFIED, ⟨ns, n, mM⟩), (.DELETED, ⟨ns, n, mD⟩)] s _ e1
  have r2 := run_supervised_cons_ok .MODIFIED ⟨ns, n, mM⟩
    [(.DELETED, ⟨ns, n, mD⟩)] (handle .ADDED ⟨ns, n, mA⟩ s).1 _ e2
  have r3 := run_supervised_cons_ok .DELETED ⟨ns, n, mD⟩ []
    (handle .MODIFIED ⟨ns, n, mM⟩ (handle .ADDED ⟨ns, n, mA⟩ s).1).1 _ e3
  have r1' := run_supervised_cons_ok .ADDED ⟨ns, n, mA⟩
    [(.MODIFIED, ⟨ns, n, mM⟩)] s _ e1
  have r2' := run_supervised_cons_ok .MODIFIED ⟨ns, n, mM⟩ []
    (handle .ADDED ⟨ns, n, mA⟩ s).1 _ e2
  refine ⟨?_, ?_, ?_⟩
  · rw [r1, r2, r3]
    show getFile (handle .DELETED ⟨ns, n, mD⟩ _).1.workTree _ = none
    rw [d3.2]
    exact getFile_removeFile_self _ _
  · rw [r1, r2, r3]
    rfl
  · rw [r1', r2']
    exact hget2

/-- Witness for C3 on an empty store with two concrete manifests. -/
theorem c3_ordering_preservation_witness :
    getFile (run_supervised
        [(.ADDED, ⟨"default", "pod-a", .map .nil⟩),
         (.MODIFIED, ⟨"default", "pod-a", .map (.cons "spec" (.str "x") .nil)⟩),
         (.DELETED, ⟨"default", "pod-a", .null⟩)]
        ⟨[], [], [], [], []⟩).1.workTree (snapshotPath "default" "pod-a") = none
    ∧ (run_supervised
        [(.ADDED, ⟨"default", "pod-a", .map .nil⟩),
         (.MODIFIED, ⟨"default", "pod-a", .map (.cons "spec" (.str "x") .nil)⟩),
         (.DELETED, ⟨"default", "pod-a", .null⟩)] ⟨[], [], [], [], []⟩).2 = []
    ∧ getFile (run_supervised
        [(.ADDED, ⟨"default", "pod-a", .map .nil⟩),
         (.MODIFIED, ⟨"default", "pod-a", .map (.cons "spec" (.str "x") .nil)⟩)]
        ⟨[], [], [], [], []⟩).1.workTree (snapshotPath "default" "pod-a")
        = some (Yaml.map (.cons "spec" (.str "x") .nil)).dump :=
  c3_ordering_preservation "default" "pod-a" (.map .nil)
    (.map (.cons "spec" (.str "x") .nil)) .null ⟨[], [], [], [], []⟩
    (.map .nil) (.map (.cons "spec" (.str "x") .nil)) rfl rfl

/-- Claim C4: a malformed notification (here a `DELETED` for a file that
does not exist, whose handling raises `FileNotFoundError`) dequeued
between two well-formed `ADDED` notifications for other identities is
caught and logged with its kind, namespace and name, and both
well-formed notifications are still reconciled: their files carry the
expected sanitized manifests after the loop. -/
theorem c4_fault_isolation (p1 pb p2 : Pod) (m1 m2 : Yaml) (s : St)
    (h1 : clean_manifest (sanitize_for_serialization p1) = .ok m1)
    (h2 : clean_manifest (sanitize_for_serialization p2) = .ok m2)
    (hb : getFile s.workTree (snapshotPath pb.ns pb.name) = none)
    (hb1 : snapshotPath pb.ns pb.name ≠ snapshotPath p1.ns p1.name)
    (h12 : snapshotPath p1.ns p1.name ≠ snapshotPath p2.ns p2.name) :
    getFile (run_supervised [(.ADDED, p1), (.DELETED, pb), (.ADDED, p2)] s).1.workTree
        (snapshotPath p1.ns p1.name) = some m1.dump
    ∧ getFile (run_supervised [(.ADDED, p1), (.DELETED, pb), (.ADDED, p2)] s).1.workTree
        (snapshotPath p2.ns p2.name) = some m2.dump
    ∧ (run_supervised [(.ADDED, p1), (.DELETED, pb), (.ADDED, p2)] s).2 =
        [("DELETED", pb.ns, pb.name)] := by
  have u1 := handle_update_fields .ADDED p1 s m1 (Or.inl rfl) h1
  have e1 := eq_pair_of_snd_none _ u1.1
  have hgetb : getFile (handle .ADDED p1 s).1.workTree (snapshotPath pb.ns pb.name) = none := by
    rw [u1.2, getFile_setFile_ne _ _ _ _ hb1]
    exact hb
  have eb := handle_eq_delete_absent pb (handle .ADDED p1 s).1 hgetb
  have u2 := handle_update_fields .ADDED p2 (handle .ADDED p1 s).1 m2 (Or.inl rfl) h2
  have e2 := eq_pair_of_snd_none _ u2.1
  have r1 := run_supervised_cons_ok .ADDED p1 [(.DELETED, pb), (.ADDED, p2)] s _ e1
  have rb := run_supervised_cons_err .DELETED pb [(.ADDED, p2)]
    (handle .ADDED p1 s).1 (handle .ADDED p1 s).1 .fileNotFoundError eb
  have r2 := run_supervised_cons_ok .ADDED p2 [] (handle .ADDED p1 s).1 _ e2
  rw [r1, rb, r2]
  refine ⟨?_, ?_, rfl⟩
  · show getFile (handle .ADDED p2 (handle .ADDED p1 s).1).1.workTree _ = some m1.dump
    rw [u2.2, getFile_setFile_ne _ _ _ _ h12, u1.2]
    exact getFile_setFile_self _ _ _
  · show getFile (handle .ADDED p2 (handle .ADDED p1 s).1).1.workTree _ = some m2.dump
    rw [u2.2]
    exact getFile_setFile_self _ _ _

/-- Witness for C4: three concrete queue items on an empty store, the
middle one malformed. -/
theorem c4_fault_isolation_witness :
    getFile (run_supervised
        [(.ADDED, ⟨"a", "x", .map .nil⟩), (.DELETED, ⟨"b", "y", .null⟩),
         (.ADDED, ⟨"c", "z", .map .nil⟩)] ⟨[], [], [], [], []⟩).1.workTree
        (snapshotPath "a" "x") = some (Yaml.map .nil).dump
    ∧ getFile (run_supervised
        [(.ADDED, ⟨"a", "x", .map .nil⟩), (.DELETED, ⟨"b", "y", .null⟩),
         (.ADDED, ⟨"c", "z", .map .nil⟩)] ⟨[], [], [], [], []⟩).1.workTree
        (snapshotPath "c" "z") = some (Yaml.map .nil).dump
    ∧ (run_supervised
        [(.ADDED, ⟨"a", "x", .map .nil⟩), (.DELETED, ⟨"b", "y", .null⟩),
         (.ADDED, ⟨"c", "z", .map .nil⟩)] ⟨[], [], [], [], []⟩).2 =
        [("DELETED", "b", "y")] :=
  c4_fault_isolation ⟨"a", "x", .map .nil⟩ ⟨"b", "y", .null⟩ ⟨"c", "z", .map .nil⟩
    (.map .nil) (.map .nil) ⟨[], [], [], [], []⟩ rfl rfl rfl
    (by decide) (by decide)

/-- Claim C7: handling any non-sentinel notification whose file-tree
mutation succeeds runs exactly one stage-all plus one commit attempt, in
that order, and the commit message is the event kind's name followed by
the resource's namespace and name. -/
theorem c7_one_commit_per_event (et : EventType) (pod : Pod) (s : St)
    (hne : et ≠ .DONE_INITIAL)
    (hdel : et = .DELETED → (getFile s.workTree (snapshotPath pod.ns pod.name)).isSome = true)
    (hupd : et = .ADDED ∨ et = .MODIFIED →
      ∃ m, clean_manifest (sanitize_for_serialization pod) = .ok m) :
    (handle et pod s).2 = none
    ∧ (handle et pod s).1.gitTrace =
        s.gitTrace ++ [["add", "-A"], ["commit", "-m", commitMsg et pod]]
    ∧ commitMsg et pod = et.name ++ " " ++ pod.ns ++ "/" ++ pod.name := by
  have upd : et = .ADDED ∨ et = .MODIFIED →
      (handle et pod s).2 = none
      ∧ (handle et pod s).1.gitTrace =
          s.gitTrace ++ [["add", "-A"], ["commit", "-m", commitMsg et pod]] := by
    intro hk
    obtain ⟨m, hm⟩ := hupd hk
    have h1 := handle_eq_update et pod s m hk hm
    have f1 := git_add_commit_fields et pod
      { s with workTree := setFile s.workTree (snapshotPath pod.ns pod.name) m.dump }
    exact ⟨by rw [h1]; exact f1.1, by rw [h1]; exact f1.2.2.2.2.1⟩
  cases et with
  | DONE_INITIAL => exact absurd rfl hne
  | ADDED => exact ⟨(upd (Or.inl rfl)).1, (upd (Or.inl rfl)).2, rfl⟩
  | MODIFIED => exact ⟨(upd (Or.inr rfl)).1, (upd (Or.inr rfl)).2, rfl⟩
  | DELETED =>
      have h1 := handle_eq_delete pod s (hdel rfl)
      have f1 := git_add_commit_fields .DELETED pod
        { s with workTree := removeFile s.workTree (snapshotPath pod.ns pod.name) }
      exact ⟨by rw [h1]; exact f1.1, by rw [h1]; exact f1.2.2.2.2.1, rfl⟩

/-- Witness for C7: one `ADDED` notification on an empty store. -/
theorem c7_one_commit_per_event_witness :
    (handle .ADDED ⟨"d", "p", .map .nil⟩ ⟨[], [], [], [], []⟩).2 = none
    ∧ (handle .ADDED ⟨"d", "p", .map .nil⟩ ⟨[], [], [], [], []⟩).1.gitTrace =
        ([] : List (List String))
          ++ [["add", "-A"], ["commit", "-m", commitMsg .ADDED ⟨"d", "p", .map .nil⟩]]
    ∧ commitMsg .ADDED ⟨"d", "p", .map .nil⟩ =
        EventType.name .ADDED ++ " " ++ "d" ++ "/" ++ "p" :=
  c7_one_commit_per_event .ADDED ⟨"d", "p", .map .nil⟩ ⟨[], [], [], [], []⟩
    (by decide) (by decide) (fun _ => ⟨.map .nil, rfl⟩)
